import Mathlib

/-!
Shallow embedding of the CivicFix client code (a Next.js + Supabase civic
issue reporting app) for checking its natural-language specification.

Each definition below is translated from a concrete function of the
repository: the admin console (app/admin/page.js), the dashboard
(app/dashboard/page.js), the rewards page (app/rewards/page.js), the
profile page, the signup page (app/signup/page.js) and the community page
(app/community/page.js). Asynchronous Supabase calls are modelled by
passing the remote response (or its success flag) as an explicit argument;
React state setters become explicit state-record updates; JavaScript
numbers are modelled as rationals.
-/

namespace CivicFix

/-! ## Data model

An issue row as used by the admin console, dashboard and community pages.
Fields are the ones the client reads or writes. -/

structure Issue where
  id : String
  title : String
  description : String
  category : String
  location : String
  latitude : ℚ
  longitude : ℚ
  image_url : Option String
  is_emergency : Bool
  status : String
  created_at : String
  submitted_by : String
deriving DecidableEq, Repr

/-! ## Rewards page (app/rewards/page.js) and profile page

From the source:
  const currentLevel = points < 100 ? 1 : points < 500 ? 2 : 3;
  const nextLevelPoints = currentLevel === 1 ? 100 : currentLevel === 2 ? 500 : 1000;
  const prevLevelPoints = currentLevel === 1 ? 0 : currentLevel === 2 ? 100 : 500;
  const progressPercent = Math.min(100, Math.max(0,
    ((points - prevLevelPoints) / (nextLevelPoints - prevLevelPoints)) * 100));
and the displayed remainder is the JSX expression nextLevelPoints - points. -/

def currentLevel (points : ℚ) : Nat :=
  if points < 100 then 1 else if points < 500 then 2 else 3

def nextLevelPoints (points : ℚ) : ℚ :=
  if currentLevel points = 1 then 100 else if currentLevel points = 2 then 500 else 1000

def prevLevelPoints (points : ℚ) : ℚ :=
  if currentLevel points = 1 then 0 else if currentLevel points = 2 then 100 else 500

def progressPercent (points : ℚ) : ℚ :=
  min 100 (max 0 ((points - prevLevelPoints points) /
    (nextLevelPoints points - prevLevelPoints points) * 100))

def pointsToNextLevel (points : ℚ) : ℚ :=
  nextLevelPoints points - points

/-- Level string rendered by the profile page (app/profile/page.js):
profile.points < 100 ? then 1 : profile.points < 500 ? then 2 : else 3,
shown as a string. -/
def profileLevel (points : ℚ) : String :=
  if points < 100 then "1" else if points < 500 then "2" else "3"

/-- Written from the SPEC wording, not from the source, for comparison with
progressPercent: the progress-bar percentage as the plain linear
interpolation (p - prev) / (next - prev) * 100 between the current level
threshold and the next, with no clamping. -/
def specProgressInterpolation (points : ℚ) : ℚ :=
  (points - prevLevelPoints points) /
    (nextLevelPoints points - prevLevelPoints points) * 100

/-! ## Admin console (app/admin/page.js, current version)

The component state carries the issue list, derived stats, the loading
flag, the id flashed for a new insert, and the route pushed by the guard
(router.push is modelled by recording the target route). -/

structure AdminStats where
  pending : Nat
  emergency : Nat
  resolved : Nat
deriving DecidableEq, Repr

structure AdminState where
  issues : List Issue
  stats : AdminStats
  loading : Bool
  newIssueId : Option String
  redirect : Option String
deriving DecidableEq, Repr

def initialAdminState : AdminState :=
  { issues := [], stats := ⟨0, 0, 0⟩, loading := true, newIssueId := none, redirect := none }

/-- The stats block of fetchIssues:
  const pending = data.filter(i => i.status !== "Resolved").length;
  const emergency = data.filter(i => i.is_emergency && i.status !== "Resolved").length;
  const resolved = data.filter(i => i.status === "Resolved").length; -/
def computeStats (data : List Issue) : AdminStats :=
  { pending := (data.filter (fun i => !(i.status == "Resolved"))).length
    emergency := (data.filter (fun i => i.is_emergency && !(i.status == "Resolved"))).length
    resolved := (data.filter (fun i => i.status == "Resolved")).length }

/-- fetchIssues: the remote response is either the ordered row list (success)
or an error (none). On success the list is replaced wholesale and the stats
recomputed; on error only console.error runs; setLoading(false) runs in
both branches. -/
def fetchIssues (resp : Option (List Issue)) (s : AdminState) : AdminState :=
  match resp with
  | some data =>
      { s with issues := data, stats := computeStats data, loading := false }
  | none => { s with loading := false }

/-- The optimistic setIssues step inside updateStatus:
  setIssues(issues.map(i => i.id === id ? \x7b ...i, status: newStatus \x7d : i)) -/
def optimisticStatusUpdate (issues : List Issue) (id newStatus : String) : List Issue :=
  issues.map (fun i => if i.id = id then { i with status := newStatus } else i)

/-- The remote mutation: update issues set status = newStatus where id = id. -/
def remoteStatusUpdate (rows : List Issue) (id newStatus : String) : List Issue :=
  rows.map (fun i => if i.id = id then { i with status := newStatus } else i)

/-- Observable side effects of the admin page, used to trace what the code
triggers. -/
inductive AdminAct where
  | push (route : String)
  | optimisticSet
  | remoteUpdateCall
  | fetchIssuesCall
deriving DecidableEq, Repr

/-- updateStatus of the current admin page:
  setIssues(issues.map(...));                              -- optimistic
  await supabase.from("issues").update(...).eq("id", id);  -- remote write
  fetchIssues();                                           -- re-sync
The Supabase update never throws (it returns an error value that this code
discards), so fetchIssues() runs whether the remote write succeeded
(updateOk = true, the remote rows change) or failed (updateOk = false, the
remote rows stay as they were). refetchResp none models the refetch itself
erroring. The result is the final component state, the remote rows after
the write attempt, and the trace of triggered effects. -/
def updateStatus (updateOk : Bool) (refetchOk : Bool) (remote : List Issue)
    (s : AdminState) (id newStatus : String) :
    AdminState × List Issue × List AdminAct :=
  let s1 := { s with issues := optimisticStatusUpdate s.issues id newStatus }
  let remote1 := if updateOk then remoteStatusUpdate remote id newStatus else remote
  let s2 := fetchIssues (if refetchOk then some remote1 else none) s1
  (s2, remote1, [AdminAct.optimisticSet, AdminAct.remoteUpdateCall, AdminAct.fetchIssuesCall])

/-- Environment of one admin-page mount: the authenticated user (if any),
the role column of the profile row of that user (profile?.role), and the
response the issues query would return. -/
structure AdminEnv where
  user : Option String
  role : Option String
  issuesResp : Option (List Issue)
deriving Repr

/-- checkAdmin, run once on mount:
  if (!user) \x7b router.push("/login"); return; \x7d
  if (profile?.role !== "admin") \x7b router.push("/dashboard"); return; \x7d
  fetchIssues(); -/
def checkAdmin (env : AdminEnv) (s : AdminState) : AdminState × List AdminAct :=
  match env.user with
  | none => ({ s with redirect := some "/login" }, [AdminAct.push "/login"])
  | some _ =>
      if env.role = some "admin" then
        (fetchIssues env.issuesResp s, [AdminAct.fetchIssuesCall])
      else
        ({ s with redirect := some "/dashboard" }, [AdminAct.push "/dashboard"])

/-- A postgres_changes event delivered on the admin-feed channel. -/
inductive RealtimeEvent where
  | insert (newId : String)
  | update
  | delete
deriving DecidableEq, Repr

/-- The realtime callback, installed unconditionally in the same useEffect
that launches checkAdmin:
  if (payload.eventType === "INSERT") setNewIssueId(payload.new.id);
  fetchIssues(); -/
def onRealtimeEvent (env : AdminEnv) (ev : RealtimeEvent) (s : AdminState) :
    AdminState × List AdminAct :=
  let s1 := match ev with
    | RealtimeEvent.insert nid => { s with newIssueId := some nid }
    | _ => s
  (fetchIssues env.issuesResp s1, [AdminAct.fetchIssuesCall])

/-- One mounted admin-page session: checkAdmin runs, then each realtime
event delivered while the view is still mounted runs the callback. The
subscription is active for every event in the list regardless of the role
outcome of the role check, exactly as in the source, where the channel is
subscribed
outside checkAdmin. -/
def runAdminView (env : AdminEnv) (events : List RealtimeEvent) :
    AdminState × List AdminAct :=
  let start := checkAdmin env initialAdminState
  events.foldl
    (fun acc ev =>
      let step := onRealtimeEvent env ev acc.1
      (step.1, acc.2 ++ step.2))
    start

/-! ## Dashboard (app/dashboard/page.js) -/

structure DashboardStats where
  resolved : Nat
  pending : Nat
deriving DecidableEq, Repr

structure DashboardState where
  username : String
  userEmail : String
  stats : DashboardStats
  myIssues : List Issue
  isLoading : Bool
  redirect : Option String
deriving DecidableEq, Repr

/-- What the remote answers during one successful fetchRealData run: the
profile row (username, possibly null), the two head-count queries (possibly
null), and the limited own-issues query (possibly null). -/
structure DashboardResp where
  email : String
  profileUsername : Option String
  resolvedCount : Option Nat
  pendingCount : Option Nat
  issuesData : Option (List Issue)
deriving DecidableEq, Repr

/-- JavaScript truthiness of an optional string, as used by the patterns
profile?.username || "Citizen" and votedIssues[issueId]: null, undefined
and the empty string are falsy. -/
def jsTruthyStr : Option String → Bool
  | some s => !(s == "")
  | none => false

/-- x || d on an optional string. -/
def jsOrStr (x : Option String) (d : String) : String :=
  match x with
  | some s => if s == "" then d else s
  | none => d

/-- fetchRealData: resp = none models authError or a missing user, in which
case router.push("/login") fires and the try block returns; the finally
clause still clears the loading flag. On a response, every displayed field
is replaced from the response: username via profile?.username || "Citizen",
the two stats via count || 0, the mini-list via issuesData || []. -/
def fetchRealData (resp : Option DashboardResp) (s : DashboardState) : DashboardState :=
  match resp with
  | none => { s with redirect := some "/login", isLoading := false }
  | some r =>
      { username := jsOrStr r.profileUsername "Citizen"
        userEmail := r.email
        stats := { resolved := r.resolvedCount.getD 0, pending := r.pendingCount.getD 0 }
        myIssues := r.issuesData.getD []
        isLoading := false
        redirect := s.redirect }

/-! ## Signup page (app/signup/page.js, current version) -/

structure SignUpForm where
  email : String
  password : String
  fullName : String
  mobile : String
  username : String
deriving DecidableEq, Repr

/-- Network requests the signup handler can issue. -/
inductive SignUpCall where
  | authSignUp
  | profileUpsert
deriving DecidableEq, Repr

/-- What the remote would answer if supabase.auth.signUp were invoked. -/
structure SignUpRemote where
  authError : Option String
  userCreated : Bool
  sessionCreated : Bool
deriving DecidableEq, Repr

/-- Outcome of one handleSignUp submission: the inline error message, the
network calls actually issued, the route pushed, and the
verificationPending flag. -/
structure SignUpResult where
  error : Option String
  calls : List SignUpCall
  redirect : Option String
  verificationPending : Bool
deriving DecidableEq, Repr

/-- isValidIndianMobile: the regex test ^[6-9]\d\x7b9\x7d$ — a first
character among 6, 7, 8, 9 followed by exactly nine ASCII digits. -/
def isValidIndianMobile (number : String) : Bool :=
  match number.data with
  | [] => false
  | c :: rest =>
      (c == '6' || c == '7' || c == '8' || c == '9') &&
        rest.length == 9 && rest.all Char.isDigit

/-- handleSignUp: client-side validations run first and each failure sets
the inline error and returns before any network call; only then does
supabase.auth.signUp run, followed (when a user is returned) by the
profiles upsert and either a role-dependent redirect (session present) or
the verification-pending screen. -/
def handleSignUp (form : SignUpForm) (role : String) (remote : SignUpRemote) :
    SignUpResult :=
  if !isValidIndianMobile form.mobile then
    { error := some "Please enter a valid 10-digit Indian mobile number."
      calls := [], redirect := none, verificationPending := false }
  else if form.password.length < 6 then
    { error := some "Password must be at least 6 characters."
      calls := [], redirect := none, verificationPending := false }
  else
    match remote.authError with
    | some msg =>
        { error := some msg, calls := [SignUpCall.authSignUp]
          redirect := none, verificationPending := false }
    | none =>
        if remote.userCreated then
          if remote.sessionCreated then
            { error := none, calls := [SignUpCall.authSignUp, SignUpCall.profileUpsert]
              redirect := some (if role == "authority" then "/admin" else "/dashboard")
              verificationPending := false }
          else
            { error := none, calls := [SignUpCall.authSignUp, SignUpCall.profileUpsert]
              redirect := none, verificationPending := true }
        else
          { error := none, calls := [SignUpCall.authSignUp]
            redirect := none, verificationPending := false }

/-! ## Community page (app/community/page.js) -/

/-- The in-memory votedIssues object, a map from issue id to the string
"dispute" or "verify"; modelled as an association list where a later vote
for a key is consed on and shadows (there is never a second write for the
same key, by the theorems below). -/
structure CommunityState where
  votedIssues : List (String × String)
deriving DecidableEq, Repr

def initialCommunityState : CommunityState := { votedIssues := [] }

/-- Effects handleVote can produce. -/
inductive VoteAct where
  | alertAlreadyVoted
  | pushLogin
  | insertVerification (issueId userId : String) (isDispute : Bool)
deriving DecidableEq, Repr

/-- handleVote:
  if (votedIssues[issueId]) \x7b alert("Already voted!"); return; \x7d
  ... if (!user) \x7b router.push("/login"); return; \x7d
  setVotedIssues(prev => (\x7b ...prev, [issueId]: isDispute ? "dispute" : "verify" \x7d));
  await supabase.from("verifications").insert([...]);
The insert result is discarded by the source, so the guard depends only on
the in-memory map, never on whether the insert succeeded remotely. -/
def handleVote (user : Option String) (issueId : String) (isDispute : Bool)
    (s : CommunityState) : CommunityState × List VoteAct :=
  if jsTruthyStr (s.votedIssues.lookup issueId) then
    (s, [VoteAct.alertAlreadyVoted])
  else
    match user with
    | none => (s, [VoteAct.pushLogin])
    | some u =>
        ({ s with votedIssues :=
            (issueId, if isDispute then "dispute" else "verify") :: s.votedIssues },
         [VoteAct.insertVerification issueId u isDispute])

/-- A sequence of handleVote invocations within one mounted community-page
session, accumulating the effects. -/
def runVotes : List (Option String × String × Bool) → CommunityState →
    CommunityState × List VoteAct
  | [], s => (s, [])
  | inv :: rest, s =>
      let step := handleVote inv.1 inv.2.1 inv.2.2 s
      let next := runVotes rest step.1
      (next.1, step.2 ++ next.2)

/-- Number of verification inserts for a given issue id in an effect trace. -/
def countInserts (issueId : String) (acts : List VoteAct) : Nat :=
  (acts.filter (fun a =>
    match a with
    | VoteAct.insertVerification e _ _ => e == issueId
    | _ => false)).length

/-! ## Concrete sample data for witnesses and counterexamples -/

def sampleIssueA : Issue :=
  { id := "a", title := "Broken streetlight", description := "Lamp is out"
    category := "Electricity", location := "Ward 1, Main Road"
    latitude := 0, longitude := 0, image_url := none, is_emergency := false
    status := "Submitted", created_at := "2024-01-02", submitted_by := "u1" }

def sampleIssueB : Issue :=
  { id := "b", title := "Pothole", description := "Deep pothole"
    category := "Roads", location := "Ward 2, Cross Street"
    latitude := 1, longitude := 1, image_url := some "photo.jpg", is_emergency := true
    status := "Resolved", created_at := "2024-01-01", submitted_by := "u2" }

/-- A signed-in user whose profile role is citizen, with one issue on the
remote, mounting the admin view. -/
def sampleNonAdminEnv : AdminEnv :=
  { user := some "u1", role := some "citizen", issuesResp := some [sampleIssueA] }

def sampleInvalidForm : SignUpForm :=
  { email := "test@example.com", password := "secret1", fullName := "Test User"
    mobile := "1234567890", username := "testuser" }

def sampleSignUpRemote : SignUpRemote :=
  { authError := none, userCreated := true, sessionCreated := true }

/-! ## Theorems -/

/-- C4: for every non-negative point total p, the level shown by the
rewards page (currentLevel) and the profile page (profileLevel) is 1 when
p < 100, 2 when 100 <= p < 500 and 3 when p >= 500; at p = 450 the level
is 2 and the points-to-next-level display reads 50. -/
theorem level_thresholds (p : ℚ) (_hp : 0 ≤ p) :
    (p < 100 → currentLevel p = 1 ∧ profileLevel p = "1") ∧
    (100 ≤ p → p < 500 → currentLevel p = 2 ∧ profileLevel p = "2") ∧
    (500 ≤ p → currentLevel p = 3 ∧ profileLevel p = "3") ∧
    currentLevel 450 = 2 ∧ pointsToNextLevel 450 = 50 := by
  refine ⟨?_, ?_, ?_, ?_, ?_⟩
  · intro h
    constructor
    · unfold currentLevel
      rw [if_pos h]
    · unfold profileLevel
      rw [if_pos h]
  · intro h1 h2
    constructor
    · unfold currentLevel
      rw [if_neg (not_lt.mpr h1), if_pos h2]
    · unfold profileLevel
      rw [if_neg (not_lt.mpr h1), if_pos h2]
  · intro h
    have h1 : ¬ p < 100 := by linarith
    have h2 : ¬ p < 500 := by linarith
    constructor
    · unfold currentLevel
      rw [if_neg h1, if_neg h2]
    · unfold profileLevel
      rw [if_neg h1, if_neg h2]
  · norm_num [currentLevel]
  · norm_num [pointsToNextLevel, nextLevelPoints, currentLevel]

/-- C4 witness at p = 450. -/
theorem level_thresholds_witness :
    0 ≤ (450 : ℚ) ∧ (100 : ℚ) ≤ 450 ∧ (450 : ℚ) < 500 ∧
    currentLevel 450 = 2 ∧ profileLevel 450 = "2" ∧ pointsToNextLevel 450 = 50 := by
  have h := level_thresholds 450 (by norm_num)
  exact ⟨by norm_num, by norm_num, by norm_num,
    (h.2.1 (by norm_num) (by norm_num)).1,
    (h.2.1 (by norm_num) (by norm_num)).2,
    h.2.2.2.2⟩

/-- C7 counterexample: at 1200 points the rendered progress percentage is
the clamped value 100, not the un-clamped linear interpolation 140 the
claim specifies for every point total. -/
theorem progressPercent_counterexample :
    progressPercent 1200 = 100 ∧ specProgressInterpolation 1200 = 140 ∧
    progressPercent 1200 ≠ specProgressInterpolation 1200 := by
  norm_num [progressPercent, specProgressInterpolation, prevLevelPoints,
    nextLevelPoints, currentLevel]

/-- C7 amended: for every point total p with 0 <= p <= 1000 the progress
percentage equals the linear interpolation (p - prev) / (next - prev) * 100
between the current level threshold and the next; beyond 1000 points it is
clamped to 100. -/
theorem progressPercent_eq_interpolation (p : ℚ) (h0 : 0 ≤ p) :
    (p ≤ 1000 → progressPercent p = specProgressInterpolation p) ∧
    (1000 < p → progressPercent p = 100) := by
  unfold progressPercent specProgressInterpolation prevLevelPoints nextLevelPoints
    currentLevel
  by_cases hA : p < 100
  · rw [if_pos hA]
    norm_num
    constructor
    · intro _
      rw [max_eq_right h0, min_eq_right (by linarith : p ≤ (100 : ℚ))]
    · intro hgt
      linarith
  · rw [if_neg hA]
    push_neg at hA
    by_cases hB : p < 500
    · rw [if_pos hB]
      norm_num
      have hx : (p - 100) / 400 * 100 = (p - 100) * (1 / 4) := by ring
      rw [hx]
      constructor
      · intro _
        rw [max_eq_right (by linarith : (0 : ℚ) ≤ (p - 100) * (1 / 4)),
          min_eq_right (by linarith : (p - 100) * (1 / 4) ≤ (100 : ℚ))]
      · intro hgt
        linarith
    · rw [if_neg hB]
      push_neg at hB
      norm_num
      have hx : (p - 500) / 500 * 100 = (p - 500) * (1 / 5) := by ring
      rw [hx]
      constructor
      · intro hle
        rw [max_eq_right (by linarith : (0 : ℚ) ≤ (p - 500) * (1 / 5)),
          min_eq_right (by linarith : (p - 500) * (1 / 5) ≤ (100 : ℚ))]
      · intro hgt
        rw [le_div_iff₀ (by norm_num : (0 : ℚ) < 500)]
        linarith

/-- C7 amended witness at p = 450 and p = 1200. -/
theorem progressPercent_eq_interpolation_witness :
    0 ≤ (450 : ℚ) ∧ (450 : ℚ) ≤ 1000 ∧
    progressPercent 450 = specProgressInterpolation 450 ∧
    (1000 : ℚ) < 1200 ∧ progressPercent 1200 = 100 := by
  refine ⟨by norm_num, by norm_num, ?_, by norm_num, ?_⟩
  · exact (progressPercent_eq_interpolation 450 (by norm_num)).1 (by norm_num)
  · exact (progressPercent_eq_interpolation 1200 (by norm_num)).2 (by norm_num)

/-- C10: for every non-negative point total the progress percentage is
clamped inside [0, 100], even past 1000 points, while the adjacent
points-to-next-level display can be negative (it is -200 at 1200 points). -/
theorem progressPercent_in_unit_range (p : ℚ) (_hp : 0 ≤ p) :
    0 ≤ progressPercent p ∧ progressPercent p ≤ 100 ∧
    ∃ q : ℚ, 0 ≤ q ∧ pointsToNextLevel q < 0 := by
  refine ⟨?_, ?_, ⟨1200, by norm_num, ?_⟩⟩
  · exact le_min (by norm_num) (le_max_left _ _)
  · exact min_le_left _ _
  · norm_num [pointsToNextLevel, nextLevelPoints, currentLevel]

/-- C10 witness at p = 1200. -/
theorem progressPercent_in_unit_range_witness :
    0 ≤ (1200 : ℚ) ∧ 0 ≤ progressPercent 1200 ∧ progressPercent 1200 ≤ 100 := by
  have h := progressPercent_in_unit_range 1200 (by norm_num)
  exact ⟨by norm_num, h.1, h.2.1⟩

/-- C1: the optimistic setIssues step of the admin updateStatus maps every
issue with the given identifier to the same issue with only its status
field set to the new value, leaves every other issue unchanged, and when
the identifier is present the resulting list contains an issue with that
identifier whose status equals the new value. -/
theorem optimisticStatusUpdate_correct (l : List Issue) (id newStatus : String)
    (hmem : id ∈ l.map Issue.id) :
    List.Forall₂
      (fun i i2 => (i.id = id → i2 = { i with status := newStatus }) ∧
        (i.id ≠ id → i2 = i))
      l (optimisticStatusUpdate l id newStatus) ∧
    ∃ i2 ∈ optimisticStatusUpdate l id newStatus,
      i2.id = id ∧ i2.status = newStatus := by
  constructor
  · unfold optimisticStatusUpdate
    rw [List.forall₂_map_right_iff, List.forall₂_same]
    intro i _
    constructor
    · intro h
      rw [if_pos h]
    · intro h
      rw [if_neg h]
  · rcases List.mem_map.mp hmem with ⟨i, hi, hid⟩
    refine ⟨{ i with status := newStatus }, ?_, hid, rfl⟩
    unfold optimisticStatusUpdate
    exact List.mem_map.mpr ⟨i, hi, by rw [if_pos hid]⟩

/-- C1 witness on a two-issue list. -/
theorem optimisticStatusUpdate_correct_witness :
    ("a" ∈ [sampleIssueA, sampleIssueB].map Issue.id) ∧
    ∃ i2 ∈ optimisticStatusUpdate [sampleIssueA, sampleIssueB] "a" "Resolved",
      i2.id = "a" ∧ i2.status = "Resolved" :=
  ⟨by decide,
    (optimisticStatusUpdate_correct [sampleIssueA, sampleIssueB] "a" "Resolved"
      (by decide)).2⟩

/-- C2: every updateStatus invocation triggers the full refetch — the
fetchIssues call is in the trace for a successful and for a failed remote
update alike — and when the remote update failed and the refetch answered,
the component ends up showing exactly the unchanged remote rows, i.e. the
failed update is reverted. -/
theorem updateStatus_unconditional_refetch (updateOk refetchOk : Bool)
    (remote : List Issue) (s : AdminState) (id newStatus : String) :
    AdminAct.fetchIssuesCall ∈
      (updateStatus updateOk refetchOk remote s id newStatus).2.2 ∧
    (updateOk = false → refetchOk = true →
      (updateStatus updateOk refetchOk remote s id newStatus).1.issues = remote ∧
      (updateStatus updateOk refetchOk remote s id newStatus).1.stats =
        computeStats remote) := by
  constructor
  · simp [updateStatus]
  · intro hu hr
    subst hu
    subst hr
    simp [updateStatus, fetchIssues]

/-- C2 witness: a failed remote update followed by a successful refetch
leaves the original remote rows on screen. -/
theorem updateStatus_unconditional_refetch_witness :
    AdminAct.fetchIssuesCall ∈
      (updateStatus false true [sampleIssueA] initialAdminState "a" "Resolved").2.2 ∧
    (updateStatus false true [sampleIssueA] initialAdminState "a" "Resolved").1.issues =
      [sampleIssueA] :=
  ⟨(updateStatus_unconditional_refetch false true [sampleIssueA] initialAdminState
      "a" "Resolved").1,
   ((updateStatus_unconditional_refetch false true [sampleIssueA] initialAdminState
      "a" "Resolved").2 rfl rfl).1⟩

/-- C6: when a refetched list differs from the previous one only in a
single issue whose status went from a non-Resolved value to Resolved, the
pending stat computed by the refetch is exactly one less and the resolved
stat exactly one greater than before. -/
theorem refetch_stats_shift (pre post : List Issue) (i : Issue) (s : AdminState)
    (h : i.status ≠ "Resolved") :
    (fetchIssues (some (pre ++ { i with status := "Resolved" } :: post)) s).stats.pending + 1 =
      (fetchIssues (some (pre ++ i :: post)) s).stats.pending ∧
    (fetchIssues (some (pre ++ { i with status := "Resolved" } :: post)) s).stats.resolved =
      (fetchIssues (some (pre ++ i :: post)) s).stats.resolved + 1 := by
  have h2 : (i.status == "Resolved") = false := by
    simp [h]
  constructor
  · simp only [fetchIssues, computeStats, List.filter_append, List.filter_cons, h2,
      List.length_append]
    simp [h2]
    omega
  · simp only [fetchIssues, computeStats, List.filter_append, List.filter_cons, h2,
      List.length_append]
    simp [h2]
    omega

/-- C6 witness: resolving the Submitted sample issue moves the stats by
one in each direction. -/
theorem refetch_stats_shift_witness :
    sampleIssueA.status ≠ "Resolved" ∧
    (fetchIssues (some ([] ++ { sampleIssueA with status := "Resolved" } :: [sampleIssueB]))
        initialAdminState).stats.pending + 1 =
      (fetchIssues (some ([] ++ sampleIssueA :: [sampleIssueB]))
        initialAdminState).stats.pending :=
  ⟨by decide,
    (refetch_stats_shift [] [sampleIssueB] sampleIssueA initialAdminState (by decide)).1⟩

/-- C8: with a fixed remote response and no intervening mutation, running
the admin refetch twice leaves exactly the state (issue list, stats,
loading flag) of running it once, and likewise for the dashboard
fetchRealData — the refetch is idempotent in the remote state. -/
theorem refetch_idempotent (resp : Option (List Issue)) (s : AdminState)
    (dresp : Option DashboardResp) (ds : DashboardState) :
    fetchIssues resp (fetchIssues resp s) = fetchIssues resp s ∧
    fetchRealData dresp (fetchRealData dresp ds) = fetchRealData dresp ds := by
  constructor
  · cases resp <;> rfl
  · cases dresp <;> rfl

/-- C3 counterexample: for a signed-in citizen (non-admin) mounting the
admin view, one issues change event delivered while the view is still
mounted makes the unconditionally installed realtime callback run
fetchIssues, so issue data is fetched and lands in the rendered state —
refuting the part of the claim that no issue data is ever fetched for a
non-admin, even on realtime events. The redirect to /dashboard still
happens. -/
theorem admin_guard_counterexample :
    sampleNonAdminEnv.role ≠ some "admin" ∧
    (runAdminView sampleNonAdminEnv [RealtimeEvent.update]).1.redirect =
      some "/dashboard" ∧
    AdminAct.fetchIssuesCall ∈ (runAdminView sampleNonAdminEnv [RealtimeEvent.update]).2 ∧
    (runAdminView sampleNonAdminEnv [RealtimeEvent.update]).1.issues = [sampleIssueA] := by
  refine ⟨by decide, rfl, ?_, rfl⟩
  have ht : (runAdminView sampleNonAdminEnv [RealtimeEvent.update]).2 =
      [AdminAct.push "/dashboard", AdminAct.fetchIssuesCall] := rfl
  rw [ht]
  simp

/-- C3 amended: for every signed-in user whose profile role is not admin,
checkAdmin redirects to the dashboard view and itself fetches no issue
data (its trace is just the redirect and the issue list stays empty);
however, the realtime subscription is installed regardless of the role
check, so every change event delivered while the view is still mounted
triggers a fetchIssues call even for such a user. -/
theorem checkAdmin_redirects_non_admin (env : AdminEnv) (u : String)
    (hu : env.user = some u) (hrole : env.role ≠ some "admin") :
    (checkAdmin env initialAdminState).1.redirect = some "/dashboard" ∧
    (checkAdmin env initialAdminState).1.issues = [] ∧
    (checkAdmin env initialAdminState).2 = [AdminAct.push "/dashboard"] ∧
    AdminAct.fetchIssuesCall ∉ (checkAdmin env initialAdminState).2 ∧
    (∀ ev s, AdminAct.fetchIssuesCall ∈ (onRealtimeEvent env ev s).2) := by
  refine ⟨?_, ?_, ?_, ?_, ?_⟩ <;>
    simp [checkAdmin, hu, hrole, initialAdminState, onRealtimeEvent]

/-- C3 amended witness on the sample non-admin environment. -/
theorem checkAdmin_redirects_non_admin_witness :
    sampleNonAdminEnv.user = some "u1" ∧ sampleNonAdminEnv.role ≠ some "admin" ∧
    (checkAdmin sampleNonAdminEnv initialAdminState).1.redirect = some "/dashboard" ∧
    (checkAdmin sampleNonAdminEnv initialAdminState).1.issues = [] :=
  ⟨rfl, by decide,
    (checkAdmin_redirects_non_admin sampleNonAdminEnv "u1" rfl (by decide)).1,
    (checkAdmin_redirects_non_admin sampleNonAdminEnv "u1" rfl (by decide)).2.1⟩

/-- C5: a signup submission whose mobile number fails the 10-digit 6-to-9
pattern is rejected before any network traffic: the inline validation
message is set and neither the auth sign-up nor the profile upsert call is
issued, whatever the remote would have answered. -/
theorem handleSignUp_rejects_invalid_mobile (form : SignUpForm) (role : String)
    (remote : SignUpRemote) (h : isValidIndianMobile form.mobile = false) :
    (handleSignUp form role remote).calls = [] ∧
    (handleSignUp form role remote).error =
      some "Please enter a valid 10-digit Indian mobile number." ∧
    SignUpCall.authSignUp ∉ (handleSignUp form role remote).calls ∧
    SignUpCall.profileUpsert ∉ (handleSignUp form role remote).calls := by
  refine ⟨?_, ?_, ?_, ?_⟩ <;> simp [handleSignUp, h]

/-- C5 witness: the mobile number 1234567890 starts with 1, so the form is
rejected with no calls. -/
theorem handleSignUp_rejects_invalid_mobile_witness :
    isValidIndianMobile sampleInvalidForm.mobile = false ∧
    (handleSignUp sampleInvalidForm "citizen" sampleSignUpRemote).calls = [] ∧
    (handleSignUp sampleInvalidForm "citizen" sampleSignUpRemote).error =
      some "Please enter a valid 10-digit Indian mobile number." :=
  ⟨by decide,
    (handleSignUp_rejects_invalid_mobile sampleInvalidForm "citizen" sampleSignUpRemote
      (by decide)).1,
    (handleSignUp_rejects_invalid_mobile sampleInvalidForm "citizen" sampleSignUpRemote
      (by decide)).2.1⟩

/-! ### Helper lemmas for the community-page vote guard -/

theorem runVotes_cons (inv : Option String × String × Bool)
    (rest : List (Option String × String × Bool)) (s : CommunityState) :
    runVotes (inv :: rest) s =
      ((runVotes rest (handleVote inv.1 inv.2.1 inv.2.2 s).1).1,
        (handleVote inv.1 inv.2.1 inv.2.2 s).2 ++
          (runVotes rest (handleVote inv.1 inv.2.1 inv.2.2 s).1).2) := rfl

theorem countInserts_append (e : String) (a b : List VoteAct) :
    countInserts e (a ++ b) = countInserts e a + countInserts e b := by
  simp [countInserts, List.filter_append]

/-- Once the voted map is truthy for an issue, any handleVote invocation
leaves it truthy for that issue. -/
theorem handleVote_preserves_voted (u : Option String) (e e' : String) (d : Bool)
    (s : CommunityState) (h : jsTruthyStr (s.votedIssues.lookup e) = true) :
    jsTruthyStr (((handleVote u e' d s).1).votedIssues.lookup e) = true := by
  unfold handleVote
  by_cases hg : jsTruthyStr (s.votedIssues.lookup e') = true
  · rw [if_pos hg]
    exact h
  · rw [if_neg hg]
    cases u with
    | none => exact h
    | some uu =>
        by_cases he : e' = e
        · exact absurd (he ▸ h) hg
        · show jsTruthyStr (List.lookup e ((e', _) :: s.votedIssues)) = true
          rw [show List.lookup e ((e', if d then "dispute" else "verify") ::
              s.votedIssues) = List.lookup e s.votedIssues from by
            simp [List.lookup, beq_eq_false_iff_ne.mpr (Ne.symm he)]]
          exact h

/-- A handleVote invocation issues no insert for an issue whose vote is
already recorded in the map. -/
theorem countInserts_handleVote_voted (u : Option String) (e e' : String) (d : Bool)
    (s : CommunityState) (h : jsTruthyStr (s.votedIssues.lookup e) = true) :
    countInserts e (handleVote u e' d s).2 = 0 := by
  unfold handleVote
  by_cases hg : jsTruthyStr (s.votedIssues.lookup e') = true
  · rw [if_pos hg]
    rfl
  · rw [if_neg hg]
    cases u with
    | none => rfl
    | some uu =>
        have hne : e' ≠ e := fun hEq => hg (hEq ▸ h)
        simp [countInserts, beq_eq_false_iff_ne.mpr hne]

/-- No invocation sequence issues an insert for an issue whose vote is
already in the map. -/
theorem countInserts_runVotes_voted (e : String)
    (invs : List (Option String × String × Bool)) :
    ∀ s : CommunityState, jsTruthyStr (s.votedIssues.lookup e) = true →
      countInserts e (runVotes invs s).2 = 0 := by
  induction invs with
  | nil => intro s _; rfl
  | cons inv rest ih =>
      intro s h
      obtain ⟨u, e', d⟩ := inv
      rw [runVotes_cons, countInserts_append,
        countInserts_handleVote_voted u e e' d s h,
        ih _ (handleVote_preserves_voted u e e' d s h)]

/-- From any starting state, a sequence of handleVote invocations issues at
most one verification insert per issue. -/
theorem countInserts_runVotes_le_one (e : String)
    (invs : List (Option String × String × Bool)) :
    ∀ s : CommunityState, countInserts e (runVotes invs s).2 ≤ 1 := by
  induction invs with
  | nil => intro s; simp [runVotes, countInserts]
  | cons inv rest ih =>
      intro s
      obtain ⟨u, e', d⟩ := inv
      rw [runVotes_cons, countInserts_append]
      by_cases hg : jsTruthyStr (s.votedIssues.lookup e') = true
      · have h1 : handleVote u e' d s = (s, [VoteAct.alertAlreadyVoted]) := by
          unfold handleVote
          rw [if_pos hg]
        rw [h1]
        simpa [countInserts] using ih s
      · cases u with
        | none =>
            have h1 : handleVote none e' d s = (s, [VoteAct.pushLogin]) := by
              unfold handleVote
              rw [if_neg hg]
            rw [h1]
            simpa [countInserts] using ih s
        | some uu =>
            have h1 : handleVote (some uu) e' d s =
                ({ s with votedIssues :=
                    (e', if d then "dispute" else "verify") :: s.votedIssues },
                  [VoteAct.insertVerification e' uu d]) := by
              unfold handleVote
              rw [if_neg hg]
            rw [h1]
            by_cases he : e' = e
            · subst he
              have htr : jsTruthyStr
                  ((List.lookup e' ((e', if d then "dispute" else "verify") ::
                    s.votedIssues))) = true := by
                cases d <;> simp [List.lookup, jsTruthyStr]
              have hrest := countInserts_runVotes_voted e' rest
                { s with votedIssues :=
                    (e', if d then "dispute" else "verify") :: s.votedIssues } htr
              rw [hrest]
              simp [countInserts]
            · have hc : countInserts e [VoteAct.insertVerification e' uu d] = 0 := by
                simp [countInserts, beq_eq_false_iff_ne.mpr he]
              rw [hc]
              simpa using ih _

/-- C9: within one community-page session, at most one verification insert
is ever sent per issue: once the in-memory voted map records a vote for an
issue, handleVote on that issue returns with only the already-voted alert
and an unchanged state (so no insert is issued, whatever the earlier
insert did remotely), and any sequence of invocations starting from the
fresh session state issues at most one insert for any given issue. -/
theorem handleVote_at_most_one_insert (e : String) (u : Option String) (d : Bool)
    (s : CommunityState) (invs : List (Option String × String × Bool))
    (h : jsTruthyStr (s.votedIssues.lookup e) = true) :
    handleVote u e d s = (s, [VoteAct.alertAlreadyVoted]) ∧
    countInserts e (runVotes invs initialCommunityState).2 ≤ 1 := by
  constructor
  · unfold handleVote
    rw [if_pos h]
  · exact countInserts_runVotes_le_one e invs initialCommunityState

/-- C9 witness: a second vote on issue i1 only alerts, and a session that
tries to vote twice on i1 sends at most one insert. -/
theorem handleVote_at_most_one_insert_witness :
    jsTruthyStr ((CommunityState.mk [("i1", "verify")]).votedIssues.lookup "i1") = true ∧
    handleVote (some "u2") "i1" false (CommunityState.mk [("i1", "verify")]) =
      (CommunityState.mk [("i1", "verify")], [VoteAct.alertAlreadyVoted]) ∧
    countInserts "i1" (runVotes [(some "u2", "i1", false), (some "u2", "i1", true)]
      initialCommunityState).2 ≤ 1 :=
  ⟨by decide,
   (handleVote_at_most_one_insert "i1" (some "u2") false ⟨[("i1", "verify")]⟩
      [(some "u2", "i1", false), (some "u2", "i1", true)] (by decide)).1,
   (handleVote_at_most_one_insert "i1" (some "u2") false ⟨[("i1", "verify")]⟩
      [(some "u2", "i1", false), (some "u2", "i1", true)] (by decide)).2⟩

end CivicFix
